import Mathlib

/-!
# HR Record Store — verification of the Mongoose schema layer

Shallow embedding of `src/hr-system-schema.js` (the only source file of the
repository).  The file declares Mongoose schemas: field types, `required`
flags, `enum` restrictions, `min`/`max` bounds, `default` values, the
`uppercase`/`lowercase`/`trim` setters, and unique indexes.  Writes are
modelled the way Mongoose and MongoDB execute them:

* document construction applies the setters and fills schema defaults, then
  schema validation rejects the write (`ValidationError`) when a required
  field is absent, an enum field holds an unlisted value, or a bound is
  violated — these are exactly the checks declared in the schema file;
* the insert then hits the collection's unique indexes, which reject the
  write with a duplicate-key error when the new document collides with a
  stored one.

JavaScript `Number` fields are modelled as `Int`, `Date` fields as `Int`
(epoch milliseconds) and `ObjectId` references as `Nat`.
-/

/-- Errors surfaced by store write operations: Mongoose validation failures,
MongoDB unique-index violations (E11000), and missing documents on update. -/
inductive WriteError where
  | ValidationError
  | DuplicateKey
  | NotFound
deriving DecidableEq

deriving instance DecidableEq for Except

/-- The Mongoose `uppercase` setter, modelled character-wise so that it is
kernel-computable. -/
def strUpper (s : String) : String := String.mk (s.data.map Char.toUpper)

/-- The Mongoose `lowercase` setter, modelled character-wise. -/
def strLower (s : String) : String := String.mk (s.data.map Char.toLower)

/-- The Mongoose `trim` setter: drop leading and trailing whitespace,
modelled on the character list so that it is kernel-computable. -/
def strTrim (s : String) : String :=
  String.mk (((s.data.dropWhile Char.isWhitespace).reverse.dropWhile
    Char.isWhitespace).reverse)

/-- A collection is the list of its documents in insertion order.  An insert
of an already-validated document `d` is rejected by the unique indexes
(`conflict` decides whether two documents collide on some unique index)
whenever `d` collides with a stored document; otherwise `d` is appended. -/
def storeInsert (conflict : α → α → Bool) (db : List α) (d : α) :
    Except WriteError (List α) :=
  if db.any (fun e => conflict d e) then .error .DuplicateKey
  else .ok (db ++ [d])

/-- A full-document update of the document at position `k`: the unique
indexes compare the new document against every other stored document.  The
updated document is re-appended; document order is irrelevant to the
uniqueness invariants. -/
def storeUpdate (conflict : α → α → Bool) (db : List α) (k : Nat) (d : α) :
    Except WriteError (List α) :=
  if k < db.length then storeInsert conflict (db.eraseIdx k) d
  else .error .NotFound

/-- No two stored documents collide on a unique index. -/
def StoreUnique (conflict : α → α → Bool) (db : List α) : Prop :=
  db.Pairwise fun a b => conflict a b = false

theorem beq_comm_lawful [BEq α] [LawfulBEq α] (a b : α) : (a == b) = (b == a) := by
  by_cases h : a = b
  · subst h; rfl
  · rw [beq_eq_false_iff_ne.mpr h, beq_eq_false_iff_ne.mpr (Ne.symm h)]

theorem storeInsert_unique {conflict : α → α → Bool}
    (hsymm : ∀ a b, conflict a b = conflict b a)
    {db db' : List α} {d : α} (hdb : StoreUnique conflict db)
    (h : storeInsert conflict db d = .ok db') : StoreUnique conflict db' := by
  unfold storeInsert at h
  by_cases hc : db.any (fun e => conflict d e) = true
  · simp [hc] at h
  · simp [hc] at h
    subst h
    rw [Bool.not_eq_true, List.any_eq_false] at hc
    refine List.pairwise_append.mpr ⟨hdb, List.pairwise_singleton _ _, ?_⟩
    intro a ha b hb
    rw [List.mem_singleton] at hb
    subst hb
    rw [hsymm]
    simpa using hc a ha

theorem storeUpdate_unique {conflict : α → α → Bool}
    (hsymm : ∀ a b, conflict a b = conflict b a)
    {db db' : List α} {k : Nat} {d : α} (hdb : StoreUnique conflict db)
    (h : storeUpdate conflict db k d = .ok db') : StoreUnique conflict db' := by
  unfold storeUpdate at h
  by_cases hk : k < db.length
  · rw [if_pos hk] at h
    exact storeInsert_unique hsymm
      (List.Pairwise.sublist (List.eraseIdx_sublist db k) hdb) h
  · rw [if_neg hk] at h
    exact absurd h (by simp)

/-- After a successful insert of `d`, any further document colliding with `d`
is rejected with a duplicate-key error. -/
theorem storeInsert_dup_after {conflict : α → α → Bool}
    {db db' : List α} {d e : α}
    (h : storeInsert conflict db d = .ok db') (hc : conflict e d = true) :
    storeInsert conflict db' e = .error .DuplicateKey := by
  unfold storeInsert at h
  by_cases hany : db.any (fun x => conflict d x) = true
  · simp [hany] at h
  · simp [hany] at h
    subst h
    unfold storeInsert
    rw [if_pos]
    rw [List.any_eq_true]
    exact ⟨d, by simp, hc⟩

/-- An insert colliding with some stored document fails with a duplicate-key
error. -/
theorem storeInsert_dup_mem {conflict : α → α → Bool} {db : List α} {d : α}
    (h : ∃ e ∈ db, conflict d e = true) :
    storeInsert conflict db d = .error .DuplicateKey := by
  unfold storeInsert
  rw [if_pos (List.any_eq_true.mpr h)]

-- ============================================
-- 1. DEPARTMENTS COLLECTION (source lines 22-74)
-- ============================================

/-- The fixed `name` enum of `DepartmentSchema` (lines 33-43). -/
def departmentNames : List String :=
  ["Sales", "Developers", "HR", "Design and Media", "Data Entry", "SEO",
   "Content Writers", "Other"]

/-- A stored Department document (`DepartmentSchema`, lines 22-71).
`departmentId` is required, unique and uppercased; `name` is required,
trimmed and enum-restricted; `customName` and `description` are optional
strings; `employeeCount` defaults to `0`; `isActive` defaults to `true`. -/
structure DepartmentDoc where
  departmentId : String
  name : String
  customName : Option String
  description : Option String
  headOfDepartment : Option Nat
  employeeCount : Int
  isActive : Bool
deriving DecidableEq

/-- A caller-supplied Department write payload: every schema path may be
present or absent. -/
structure DepartmentInput where
  departmentId : Option String := none
  name : Option String := none
  customName : Option String := none
  description : Option String := none
  headOfDepartment : Option Nat := none
  employeeCount : Option Int := none
  isActive : Option Bool := none
deriving DecidableEq

/-- Mongoose document construction and schema validation for Department:
applies the `uppercase`/`trim` setters and the schema defaults, then checks
the `required` and `enum` constraints declared in the schema.  `none` means
the write is rejected with `ValidationError`. -/
def buildDepartment (i : DepartmentInput) : Option DepartmentDoc :=
  match i.departmentId, i.name with
  | some did, some nm =>
      if departmentNames.contains (strTrim nm) then
        some { departmentId := strUpper did
               name := strTrim nm
               customName := i.customName.map strTrim
               description := i.description
               headOfDepartment := i.headOfDepartment
               employeeCount := i.employeeCount.getD 0
               isActive := i.isActive.getD true }
      else none
  | _, _ => none

/-- The unique index on `departmentId` (line 26). -/
def conflictDepartment (a b : DepartmentDoc) : Bool :=
  a.departmentId == b.departmentId

/-- `create` for the departments collection: validate, then insert through
the unique index. -/
def insertDepartment (db : List DepartmentDoc) (i : DepartmentInput) :
    Except WriteError (List DepartmentDoc) :=
  match buildDepartment i with
  | none => .error .ValidationError
  | some d => storeInsert conflictDepartment db d

-- ============================================
-- 2. EMPLOYEES COLLECTION (source lines 79-258)
-- ============================================

/-- The `employmentDetails.employeeType` enum (line 141). -/
def employeeTypes : List String := ["Full-Time", "Part-Time", "Contract", "Intern"]

/-- The `employmentDetails.workLocation` enum (line 159), default `Office`. -/
def workLocations : List String := ["Office", "Remote", "Hybrid"]

/-- The Employee `status` enum (line 205), default `Active`. -/
def employeeStatuses : List String :=
  ["Active", "On Leave", "Terminated", "Resigned", "Suspended"]

/-- A stored Employee document (`EmployeeSchema`, lines 79-246), flattening
the embedded sub-documents.  `employeeId` is required, unique and uppercased;
`personalInfo.email` is required, unique, lowercased and trimmed;
`biometricInfo.biometricId` is optional but unique when present (`sparse`);
`leaveBalance` defaults per type to casual 12, sick 10, annual 15, unpaid 0
(lines 229-234). -/
structure EmployeeDoc where
  employeeId : String
  firstName : String
  lastName : String
  email : String
  phone : String
  department : Nat
  designation : String
  employeeType : String
  joiningDate : Int
  probationPeriod : Int
  workLocation : String
  basicSalary : Int
  houseRent : Int
  medical : Int
  transport : Int
  otherAllowance : Int
  tax : Int
  providentFund : Int
  insurance : Int
  otherDeduction : Int
  biometricId : Option String
  fingerprintRegistered : Bool
  status : String
  casual : Int
  sick : Int
  annual : Int
  unpaid : Int
deriving DecidableEq

/-- A caller-supplied Employee write payload. -/
structure EmployeeInput where
  employeeId : Option String := none
  firstName : Option String := none
  lastName : Option String := none
  email : Option String := none
  phone : Option String := none
  department : Option Nat := none
  designation : Option String := none
  employeeType : Option String := none
  joiningDate : Option Int := none
  probationPeriod : Option Int := none
  workLocation : Option String := none
  basicSalary : Option Int := none
  houseRent : Option Int := none
  medical : Option Int := none
  transport : Option Int := none
  otherAllowance : Option Int := none
  tax : Option Int := none
  providentFund : Option Int := none
  insurance : Option Int := none
  otherDeduction : Option Int := none
  biometricId : Option String := none
  fingerprintRegistered : Option Bool := none
  status : Option String := none
  casual : Option Int := none
  sick : Option Int := none
  annual : Option Int := none
  unpaid : Option Int := none
deriving DecidableEq

/-- Mongoose document construction and schema validation for Employee:
applies the `uppercase`/`lowercase`/`trim` setters and the schema defaults,
then checks the `required` and `enum` constraints declared in the schema. -/
def buildEmployee (i : EmployeeInput) : Option EmployeeDoc :=
  match i.employeeId, i.firstName, i.lastName, i.email, i.phone, i.department,
      i.designation, i.employeeType, i.joiningDate, i.basicSalary with
  | some eid, some fn, some ln, some em, some ph, some dep, some des, some et,
      some jd, some bs =>
      if employeeTypes.contains et
          && workLocations.contains (i.workLocation.getD "Office")
          && employeeStatuses.contains (i.status.getD "Active") then
        some { employeeId := strUpper eid
               firstName := strTrim fn
               lastName := strTrim ln
               email := strTrim (strLower em)
               phone := ph
               department := dep
               designation := des
               employeeType := et
               joiningDate := jd
               probationPeriod := i.probationPeriod.getD 3
               workLocation := i.workLocation.getD "Office"
               basicSalary := bs
               houseRent := i.houseRent.getD 0
               medical := i.medical.getD 0
               transport := i.transport.getD 0
               otherAllowance := i.otherAllowance.getD 0
               tax := i.tax.getD 0
               providentFund := i.providentFund.getD 0
               insurance := i.insurance.getD 0
               otherDeduction := i.otherDeduction.getD 0
               biometricId := i.biometricId
               fingerprintRegistered := i.fingerprintRegistered.getD false
               status := i.status.getD "Active"
               casual := i.casual.getD 12
               sick := i.sick.getD 10
               annual := i.annual.getD 15
               unpaid := i.unpaid.getD 0 }
      else none
  | _, _, _, _, _, _, _, _, _, _ => none

/-- The unique indexes of the employees collection: `employeeId` (line 83),
`personalInfo.email` (line 100), and the sparse unique
`biometricInfo.biometricId` (lines 192-194) — two documents collide on the
sparse index only when both carry a biometric id and the ids are equal. -/
def conflictEmployee (a b : EmployeeDoc) : Bool :=
  a.employeeId == b.employeeId || a.email == b.email ||
    (match a.biometricId, b.biometricId with
     | some x, some y => x == y
     | _, _ => false)

theorem conflictEmployee_symm (a b : EmployeeDoc) :
    conflictEmployee a b = conflictEmployee b a := by
  unfold conflictEmployee
  cases a.biometricId <;> cases b.biometricId <;> simp [beq_comm_lawful]

/-- `create` for the employees collection. -/
def insertEmployee (db : List EmployeeDoc) (i : EmployeeInput) :
    Except WriteError (List EmployeeDoc) :=
  match buildEmployee i with
  | none => .error .ValidationError
  | some d => storeInsert conflictEmployee db d

/-- `update` (full-document save) of the employee at position `k`. -/
def updateEmployee (db : List EmployeeDoc) (k : Nat) (i : EmployeeInput) :
    Except WriteError (List EmployeeDoc) :=
  match buildEmployee i with
  | none => .error .ValidationError
  | some d => storeUpdate conflictEmployee db k d

/-- Store states of the employees collection reachable by writes. -/
inductive EmpReach : List EmployeeDoc → Prop where
  | empty : EmpReach []
  | created {db i db'} : EmpReach db → insertEmployee db i = .ok db' → EmpReach db'
  | updated {db k i db'} : EmpReach db → updateEmployee db k i = .ok db' → EmpReach db'

theorem empReach_unique {db : List EmployeeDoc} (h : EmpReach db) :
    StoreUnique conflictEmployee db := by
  induction h with
  | empty => exact List.Pairwise.nil
  | created hdb hstep ih =>
      unfold insertEmployee at hstep
      cases hb : buildEmployee _ with
      | none => rw [hb] at hstep; exact absurd hstep (by simp)
      | some d => rw [hb] at hstep; exact storeInsert_unique conflictEmployee_symm ih hstep
  | updated hdb hstep ih =>
      unfold updateEmployee at hstep
      cases hb : buildEmployee _ with
      | none => rw [hb] at hstep; exact absurd hstep (by simp)
      | some d => rw [hb] at hstep; exact storeUpdate_unique conflictEmployee_symm ih hstep

-- ============================================
-- 3. ATTENDANCE COLLECTION (source lines 263-347)
-- ============================================

/-- The check-in/check-out `source` enum (lines 278, 288), default `Biometric`. -/
def attendanceSources : List String := ["Biometric", "Manual", "System"]

/-- The Attendance `workType` enum (line 307), default `Office`. -/
def attendanceWorkTypes : List String := ["Office", "Remote", "Field"]

/-- The Attendance `status` enum (line 312), default `Present`. -/
def attendanceStatuses : List String :=
  ["Present", "Absent", "Half Day", "Late", "On Leave", "Holiday", "Weekend"]

/-- A stored Attendance document (`AttendanceSchema`, lines 263-342),
flattening the embedded sub-documents.  `employee` and `date` are required;
the `(employee, date)` pair is covered by a unique compound index
(line 345). -/
structure AttendanceDoc where
  employee : Nat
  date : Int
  checkInTime : Option Int
  checkInSource : String
  checkOutTime : Option Int
  checkOutSource : String
  totalWorkHours : Option Int
  totalBreakTime : Option Int
  workType : String
  status : String
  isLate : Bool
  lateByMinutes : Int
  isEarly : Bool
  earlyByMinutes : Int
  overtimeHours : Int
  overtimeApproved : Bool
  remarks : Option String
deriving DecidableEq

/-- A caller-supplied Attendance write payload. -/
structure AttendanceInput where
  employee : Option Nat := none
  date : Option Int := none
  checkInTime : Option Int := none
  checkInSource : Option String := none
  checkOutTime : Option Int := none
  checkOutSource : Option String := none
  totalWorkHours : Option Int := none
  totalBreakTime : Option Int := none
  workType : Option String := none
  status : Option String := none
  isLate : Option Bool := none
  lateByMinutes : Option Int := none
  isEarly : Option Bool := none
  earlyByMinutes : Option Int := none
  overtimeHours : Option Int := none
  overtimeApproved : Option Bool := none
  remarks : Option String := none
deriving DecidableEq

/-- Mongoose document construction and schema validation for Attendance. -/
def buildAttendance (i : AttendanceInput) : Option AttendanceDoc :=
  match i.employee, i.date with
  | some emp, some dt =>
      if attendanceSources.contains (i.checkInSource.getD "Biometric")
          && attendanceSources.contains (i.checkOutSource.getD "Biometric")
          && attendanceWorkTypes.contains (i.workType.getD "Office")
          && attendanceStatuses.contains (i.status.getD "Present") then
        some { employee := emp
               date := dt
               checkInTime := i.checkInTime
               checkInSource := i.checkInSource.getD "Biometric"
               checkOutTime := i.checkOutTime
               checkOutSource := i.checkOutSource.getD "Biometric"
               totalWorkHours := i.totalWorkHours
               totalBreakTime := i.totalBreakTime
               workType := i.workType.getD "Office"
               status := i.status.getD "Present"
               isLate := i.isLate.getD false
               lateByMinutes := i.lateByMinutes.getD 0
               isEarly := i.isEarly.getD false
               earlyByMinutes := i.earlyByMinutes.getD 0
               overtimeHours := i.overtimeHours.getD 0
               overtimeApproved := i.overtimeApproved.getD false
               remarks := i.remarks }
      else none
  | _, _ => none

/-- The unique compound index on `(employee, date)` (line 345). -/
def conflictAttendance (a b : AttendanceDoc) : Bool :=
  a.employee == b.employee && a.date == b.date

theorem conflictAttendance_symm (a b : AttendanceDoc) :
    conflictAttendance a b = conflictAttendance b a := by
  unfold conflictAttendance
  simp [beq_comm_lawful]

/-- `create` for the attendance collection. -/
def insertAttendance (db : List AttendanceDoc) (i : AttendanceInput) :
    Except WriteError (List AttendanceDoc) :=
  match buildAttendance i with
  | none => .error .ValidationError
  | some d => storeInsert conflictAttendance db d

/-- Store states of the attendance collection reachable by creates. -/
inductive AttReach : List AttendanceDoc → Prop where
  | empty : AttReach []
  | created {db i db'} : AttReach db → insertAttendance db i = .ok db' → AttReach db'

theorem attReach_unique {db : List AttendanceDoc} (h : AttReach db) :
    StoreUnique conflictAttendance db := by
  induction h with
  | empty => exact List.Pairwise.nil
  | created hdb hstep ih =>
      unfold insertAttendance at hstep
      cases hb : buildAttendance _ with
      | none => rw [hb] at hstep; exact absurd hstep (by simp)
      | some d => rw [hb] at hstep; exact storeInsert_unique conflictAttendance_symm ih hstep

-- ============================================
-- 4. LEAVES COLLECTION (source lines 352-414)
-- ============================================

/-- The `leaveType` enum (line 360). -/
def leaveTypes : List String :=
  ["Casual", "Sick", "Annual", "Unpaid", "Maternity", "Paternity", "Compensatory"]

/-- The Leave `status` enum (line 381), default `Pending`. -/
def leaveStatuses : List String := ["Pending", "Approved", "Rejected", "Cancelled"]

/-- A stored Leave document (`LeaveSchema`, lines 352-409).  `employee`,
`leaveType`, `startDate`, `endDate`, `numberOfDays` and `reason` are
required; `status` defaults to `Pending`. -/
structure LeaveDoc where
  employee : Nat
  leaveType : String
  startDate : Int
  endDate : Int
  numberOfDays : Int
  reason : String
  status : String
  rejectionReason : Option String
deriving DecidableEq

/-- A caller-supplied Leave write payload. -/
structure LeaveInput where
  employee : Option Nat := none
  leaveType : Option String := none
  startDate : Option Int := none
  endDate : Option Int := none
  numberOfDays : Option Int := none
  reason : Option String := none
  status : Option String := none
  rejectionReason : Option String := none
deriving DecidableEq

/-- Mongoose document construction and schema validation for Leave: the
schema declares required fields and two enums, and nothing else — in
particular no relation between `startDate` and `endDate`. -/
def buildLeave (i : LeaveInput) : Option LeaveDoc :=
  match i.employee, i.leaveType, i.startDate, i.endDate, i.numberOfDays,
      i.reason with
  | some emp, some lt, some sd, some ed, some nd, some rs =>
      if leaveTypes.contains lt
          && leaveStatuses.contains (i.status.getD "Pending") then
        some { employee := emp
               leaveType := lt
               startDate := sd
               endDate := ed
               numberOfDays := nd
               reason := rs
               status := i.status.getD "Pending"
               rejectionReason := i.rejectionReason }
      else none
  | _, _, _, _, _, _ => none

/-- Schema validation of a stored Leave document: only the two enum
constraints (lines 360, 381) exist. -/
def validateLeave (d : LeaveDoc) : Bool :=
  leaveTypes.contains d.leaveType && leaveStatuses.contains d.status

/-- A status update of a stored Leave document: Mongoose re-validates the
document against the schema on save; the schema carries no state-machine
beyond the `status` enum itself. -/
def updateLeaveStatus (d : LeaveDoc) (s : String) : Except WriteError LeaveDoc :=
  let d2 := { d with status := s }
  if validateLeave d2 then .ok d2 else .error .ValidationError

-- ============================================
-- 5. SALARIES COLLECTION (source lines 419-508)
-- ============================================

/-- The Salary `paymentStatus` enum (line 479), default `Pending`. -/
def salaryPaymentStatuses : List String := ["Pending", "Processing", "Paid", "On Hold"]

/-- The Salary `paymentMethod` enum (line 485), optional. -/
def paymentMethods : List String := ["Bank Transfer", "Cash", "Cheque"]

/-- A stored Salary document (`SalarySchema`, lines 419-503), flattening the
`earnings`, `deductions` and `attendance` sub-documents.  `employee`,
`month` (with `min: 1`, `max: 12`), `year`, `earnings.basicSalary`,
`attendance.totalWorkingDays`, `attendance.presentDays`, `grossSalary`,
`totalDeductions` and `netSalary` are required; the remaining itemized
amounts default to `0`.  The `(employee, month, year)` triple is covered by
a unique compound index (line 506). -/
structure SalaryDoc where
  employee : Nat
  month : Int
  year : Int
  basicSalary : Int
  houseRentAllowance : Int
  medicalAllowance : Int
  transportAllowance : Int
  otherAllowances : Int
  overtime : Int
  bonus : Int
  incentives : Int
  tax : Int
  providentFund : Int
  insurance : Int
  loanDeduction : Int
  lateDeduction : Int
  absentDeduction : Int
  otherDeductions : Int
  totalWorkingDays : Int
  presentDays : Int
  absentDays : Int
  leaveDays : Int
  halfDays : Int
  paidLeaveDays : Int
  grossSalary : Int
  totalDeductions : Int
  netSalary : Int
  paymentStatus : String
  paymentMethod : Option String
deriving DecidableEq

/-- A caller-supplied Salary write payload. -/
structure SalaryInput where
  employee : Option Nat := none
  month : Option Int := none
  year : Option Int := none
  basicSalary : Option Int := none
  houseRentAllowance : Option Int := none
  medicalAllowance : Option Int := none
  transportAllowance : Option Int := none
  otherAllowances : Option Int := none
  overtime : Option Int := none
  bonus : Option Int := none
  incentives : Option Int := none
  tax : Option Int := none
  providentFund : Option Int := none
  insurance : Option Int := none
  loanDeduction : Option Int := none
  lateDeduction : Option Int := none
  absentDeduction : Option Int := none
  otherDeductions : Option Int := none
  totalWorkingDays : Option Int := none
  presentDays : Option Int := none
  absentDays : Option Int := none
  leaveDays : Option Int := none
  halfDays : Option Int := none
  paidLeaveDays : Option Int := none
  grossSalary : Option Int := none
  totalDeductions : Option Int := none
  netSalary : Option Int := none
  paymentStatus : Option String := none
  paymentMethod : Option String := none
deriving DecidableEq

/-- Mongoose document construction and schema validation for Salary: the
declared checks are the required fields, the `min: 1`/`max: 12` bounds on
`month` and the two enums.  The schema declares no relation between
`grossSalary`/`totalDeductions`/`netSalary` and the itemized amounts. -/
def buildSalary (i : SalaryInput) : Option SalaryDoc :=
  match i.employee, i.month, i.year, i.basicSalary, i.totalWorkingDays,
      i.presentDays, i.grossSalary, i.totalDeductions, i.netSalary with
  | some emp, some m, some y, some bs, some twd, some pd, some gs, some td,
      some ns =>
      if decide (1 ≤ m) && decide (m ≤ 12)
          && salaryPaymentStatuses.contains (i.paymentStatus.getD "Pending")
          && i.paymentMethod.all (fun pm => paymentMethods.contains pm) then
        some { employee := emp
               month := m
               year := y
               basicSalary := bs
               houseRentAllowance := i.houseRentAllowance.getD 0
               medicalAllowance := i.medicalAllowance.getD 0
               transportAllowance := i.transportAllowance.getD 0
               otherAllowances := i.otherAllowances.getD 0
               overtime := i.overtime.getD 0
               bonus := i.bonus.getD 0
               incentives := i.incentives.getD 0
               tax := i.tax.getD 0
               providentFund := i.providentFund.getD 0
               insurance := i.insurance.getD 0
               loanDeduction := i.loanDeduction.getD 0
               lateDeduction := i.lateDeduction.getD 0
               absentDeduction := i.absentDeduction.getD 0
               otherDeductions := i.otherDeductions.getD 0
               totalWorkingDays := twd
               presentDays := pd
               absentDays := i.absentDays.getD 0
               leaveDays := i.leaveDays.getD 0
               halfDays := i.halfDays.getD 0
               paidLeaveDays := i.paidLeaveDays.getD 0
               grossSalary := gs
               totalDeductions := td
               netSalary := ns
               paymentStatus := i.paymentStatus.getD "Pending"
               paymentMethod := i.paymentMethod }
      else none
  | _, _, _, _, _, _, _, _, _ => none

/-- Sum of the itemized `earnings` sub-fields (lines 435-447). -/
def earningsSum (d : SalaryDoc) : Int :=
  d.basicSalary + d.houseRentAllowance + d.medicalAllowance
    + d.transportAllowance + d.otherAllowances + d.overtime + d.bonus
    + d.incentives

/-- Sum of the itemized `deductions` sub-fields (lines 448-456). -/
def deductionsSum (d : SalaryDoc) : Int :=
  d.tax + d.providentFund + d.insurance + d.loanDeduction + d.lateDeduction
    + d.absentDeduction + d.otherDeductions

/-- The unique compound index on `(employee, month, year)` (line 506). -/
def conflictSalary (a b : SalaryDoc) : Bool :=
  a.employee == b.employee && a.month == b.month && a.year == b.year

theorem conflictSalary_symm (a b : SalaryDoc) :
    conflictSalary a b = conflictSalary b a := by
  unfold conflictSalary
  simp [beq_comm_lawful]

/-- `create` for the salaries collection. -/
def insertSalary (db : List SalaryDoc) (i : SalaryInput) :
    Except WriteError (List SalaryDoc) :=
  match buildSalary i with
  | none => .error .ValidationError
  | some d => storeInsert conflictSalary db d

/-- `update` (full-document save) of the salary at position `k`. -/
def updateSalary (db : List SalaryDoc) (k : Nat) (i : SalaryInput) :
    Except WriteError (List SalaryDoc) :=
  match buildSalary i with
  | none => .error .ValidationError
  | some d => storeUpdate conflictSalary db k d

/-- Store states of the salaries collection reachable by writes. -/
inductive SalReach : List SalaryDoc → Prop where
  | empty : SalReach []
  | created {db i db'} : SalReach db → insertSalary db i = .ok db' → SalReach db'
  | updated {db k i db'} : SalReach db → updateSalary db k i = .ok db' → SalReach db'

theorem salReach_unique {db : List SalaryDoc} (h : SalReach db) :
    StoreUnique conflictSalary db := by
  induction h with
  | empty => exact List.Pairwise.nil
  | created hdb hstep ih =>
      unfold insertSalary at hstep
      cases hb : buildSalary _ with
      | none => rw [hb] at hstep; exact absurd hstep (by simp)
      | some d => rw [hb] at hstep; exact storeInsert_unique conflictSalary_symm ih hstep
  | updated hdb hstep ih =>
      unfold updateSalary at hstep
      cases hb : buildSalary _ with
      | none => rw [hb] at hstep; exact absurd hstep (by simp)
      | some d => rw [hb] at hstep; exact storeUpdate_unique conflictSalary_symm ih hstep

-- ============================================
-- 7. BIOMETRIC LOGS COLLECTION (source lines 572-613)
-- ============================================

/-- The BiometricLog `logType` enum (line 583). -/
def biometricLogTypes : List String := ["CheckIn", "CheckOut", "BreakIn", "BreakOut"]

/-- A stored BiometricLog document (`BiometricLogSchema`, lines 572-608).
`biometricId`, `logType` and `timestamp` are required; `processed` defaults
to `false`; `processedAt` and the `attendanceRecord` reference are filled by
the reconciliation process. -/
structure BiometricLogDoc where
  biometricId : String
  employee : Option Nat
  logType : String
  timestamp : Int
  deviceId : Option String
  processed : Bool
  processedAt : Option Int
  attendanceRecord : Option Nat
deriving DecidableEq

/-- Milliseconds per day, for collapsing a timestamp to its calendar date. -/
def msPerDay : Int := 86400000

/-- The calendar date (day start, epoch milliseconds) of a timestamp. -/
def dayOf (t : Int) : Int := (t / msPerDay) * msPerDay

/-- Replace the element at position `n` by `f` of it (out-of-range is a
no-op). -/
def modifyAt : List α → Nat → (α → α) → List α
  | [], _, _ => []
  | a :: l, 0, f => f a :: l
  | a :: l, n + 1, f => a :: modifyAt l n f

/-- A fresh Attendance document created for a biometric event, carrying the
Attendance schema defaults (source `Biometric`, workType `Office`, status
`Present`, flags false, counters 0). -/
def freshAttendance (emp : Nat) (day : Int) : AttendanceDoc :=
  { employee := emp
    date := day
    checkInTime := none
    checkInSource := "Biometric"
    checkOutTime := none
    checkOutSource := "Biometric"
    totalWorkHours := none
    totalBreakTime := none
    workType := "Office"
    status := "Present"
    isLate := false
    lateByMinutes := 0
    isEarly := false
    earlyByMinutes := 0
    overtimeHours := 0
    overtimeApproved := false
    remarks := none }

/-- Apply one biometric event to an Attendance document: a `CheckIn` event
records the check-in time, a `CheckOut` event the check-out time; break
events leave the flattened document unchanged. -/
def applyLogEvent (log : BiometricLogDoc) (a : AttendanceDoc) : AttendanceDoc :=
  if log.logType == "CheckIn" then { a with checkInTime := some log.timestamp }
  else if log.logType == "CheckOut" then { a with checkOutTime := some log.timestamp }
  else a

/-- The outcome of one reconciliation call: the (possibly updated) log, the
attendance collection, and whether this call mutated Attendance. -/
structure ReconResult where
  log : BiometricLogDoc
  attendance : List AttendanceDoc
  mutated : Bool
deriving DecidableEq

/-- Modelled from the spec: the biometric reconciliation process is an
external collaborator absent from the source — the schema declares only its
state fields (`processed`, `processedAt`, `attendanceRecord`, lines
592-600).  Per the spec, reconciliation of an unprocessed log with a
resolved employee applies exactly one Attendance mutation (updating the
day's record if one exists, creating it otherwise), links the log to that
record and marks it `processed`; an already-processed log is skipped
without touching Attendance. -/
def reconcile (log : BiometricLogDoc) (db : List AttendanceDoc) : ReconResult :=
  if log.processed then ⟨log, db, false⟩
  else
    match log.employee with
    | none => ⟨log, db, false⟩
    | some emp =>
        let day := dayOf log.timestamp
        match db.findIdx? (fun a => a.employee == emp && a.date == day) with
        | some j =>
            ⟨{ log with processed := true
                        processedAt := some log.timestamp
                        attendanceRecord := some j },
             modifyAt db j (applyLogEvent log), true⟩
        | none =>
            ⟨{ log with processed := true
                        processedAt := some log.timestamp
                        attendanceRecord := some db.length },
             db ++ [applyLogEvent log (freshAttendance emp day)], true⟩

-- ============================================
-- CLAIM THEOREMS
-- ============================================

/-- A Department write payload with `name = "Other"` and no `customName`. -/
def deptOtherNoCustom : DepartmentInput :=
  { departmentId := some "D9", name := some "Other" }

/-- The document the store accepts for `deptOtherNoCustom`. -/
def deptOtherNoCustomDoc : DepartmentDoc :=
  { departmentId := "D9", name := "Other", customName := none,
    description := none, headOfDepartment := none, employeeCount := 0,
    isActive := true }

/-- C4 counterexample: creating a Department with `name = "Other"` and no
`customName` does NOT fail — the schema declares `customName` as a plain
optional string with no conditional requirement, so the write is accepted. -/
theorem department_other_without_customName_accepted :
    insertDepartment [] deptOtherNoCustom = .ok [deptOtherNoCustomDoc] := by
  decide

/-- C4 (amended): `customName` is optional for every department name —
validation never looks at it, so creating a Department named `Other`
succeeds with or without a `customName`, and the field is stored (trimmed)
exactly as supplied. -/
theorem department_customName_optional :
    ∀ (i : DepartmentInput) (c : Option String),
      ((buildDepartment { i with customName := c }).isSome ↔
        (buildDepartment i).isSome) ∧
      ∀ d, buildDepartment i = some d →
        d.customName = i.customName.map strTrim := by
  intro i c
  obtain ⟨did, nm, cn, ds, hod, ec, ia⟩ := i
  constructor
  · unfold buildDepartment
    cases did <;> cases nm <;> simp
  · intro d h
    unfold buildDepartment at h
    cases did <;> cases nm <;> simp at h
    obtain ⟨hc, rfl⟩ := h
    rfl

/-- C4 witness: the amended theorem applied to the concrete `Other` write. -/
theorem department_customName_optional_witness :
    deptOtherNoCustomDoc.customName =
      deptOtherNoCustom.customName.map strTrim :=
  (department_customName_optional deptOtherNoCustom none).2
    deptOtherNoCustomDoc (by decide)

/-- A Department write payload carrying a negative `employeeCount`. -/
def deptNegCount : DepartmentInput :=
  { departmentId := some "D8", name := some "Sales",
    employeeCount := some (-5) }

/-- The document the store accepts for `deptNegCount`. -/
def deptNegCountDoc : DepartmentDoc :=
  { departmentId := "D8", name := "Sales", customName := none,
    description := none, headOfDepartment := none, employeeCount := -5,
    isActive := true }

/-- C9 counterexample: a write CAN make `employeeCount` negative — the
schema declares it as a plain `Number` with `default: 0` and no `min`
bound, so the store accepts `employeeCount = -5`. -/
theorem department_negative_employeeCount_accepted :
    insertDepartment [] deptNegCount = .ok [deptNegCountDoc] ∧
      deptNegCountDoc.employeeCount < 0 := by
  constructor
  · decide
  · decide

/-- C9 (amended): `employeeCount` defaults to `0` when omitted but is
otherwise stored exactly as supplied; validation is independent of its
value, so nothing keeps it non-negative. -/
theorem department_employeeCount_unconstrained :
    ∀ (i : DepartmentInput) (n : Int),
      ((buildDepartment { i with employeeCount := some n }).isSome ↔
        (buildDepartment i).isSome) ∧
      ∀ d, buildDepartment i = some d →
        d.employeeCount = i.employeeCount.getD 0 := by
  intro i n
  obtain ⟨did, nm, cn, ds, hod, ec, ia⟩ := i
  constructor
  · unfold buildDepartment
    cases did <;> cases nm <;> simp
  · intro d h
    unfold buildDepartment at h
    cases did <;> cases nm <;> simp at h
    obtain ⟨hc, rfl⟩ := h
    rfl

/-- C9 witness: the amended theorem applied to the concrete negative-count
write. -/
theorem department_employeeCount_unconstrained_witness :
    deptNegCountDoc.employeeCount = deptNegCount.employeeCount.getD 0 :=
  (department_employeeCount_unconstrained deptNegCount 0).2
    deptNegCountDoc (by decide)

/-- A Leave write payload whose `endDate` precedes its `startDate`. -/
def leaveBadDates : LeaveInput :=
  { employee := some 1, leaveType := some "Casual", startDate := some 10,
    endDate := some 5, numberOfDays := some 6, reason := some "trip" }

/-- The document the store accepts for `leaveBadDates`. -/
def leaveBadDatesDoc : LeaveDoc :=
  { employee := 1, leaveType := "Casual", startDate := 10, endDate := 5,
    numberOfDays := 6, reason := "trip", status := "Pending",
    rejectionReason := none }

/-- C5 counterexample: a Leave whose `endDate` is strictly before its
`startDate` is NOT rejected — the schema only marks both dates `required`
and declares no ordering constraint, so the write is accepted and the
stored record violates `endDate >= startDate`. -/
theorem leave_end_before_start_accepted :
    buildLeave leaveBadDates = some leaveBadDatesDoc ∧
      leaveBadDatesDoc.endDate < leaveBadDatesDoc.startDate := by
  constructor
  · decide
  · decide

/-- C5 (amended): `startDate` and `endDate` are required but stored exactly
as supplied; validation is independent of their values, so swapping the two
dates never changes whether a write is accepted. -/
theorem leave_dates_unvalidated :
    ∀ (i : LeaveInput) (s e : Int),
      ((buildLeave { i with startDate := some s, endDate := some e }).isSome ↔
        (buildLeave { i with startDate := some e, endDate := some s }).isSome) ∧
      ∀ d, buildLeave i = some d →
        i.startDate = some d.startDate ∧ i.endDate = some d.endDate := by
  intro i s e
  obtain ⟨emp, lt, sd, ed, nd, rs, st, rr⟩ := i
  constructor
  · unfold buildLeave
    cases emp <;> cases lt <;> cases nd <;> cases rs <;> simp
  · intro d h
    unfold buildLeave at h
    cases emp <;> cases lt <;> cases sd <;> cases ed <;> cases nd <;>
      cases rs <;> simp at h
    obtain ⟨hc, rfl⟩ := h
    exact ⟨rfl, rfl⟩

/-- C5 witness: the amended theorem applied to the concrete
end-before-start write. -/
theorem leave_dates_unvalidated_witness :
    leaveBadDates.startDate = some leaveBadDatesDoc.startDate ∧
      leaveBadDates.endDate = some leaveBadDatesDoc.endDate :=
  (leave_dates_unvalidated leaveBadDates 0 0).2 leaveBadDatesDoc (by decide)

/-- A stored Leave document sitting in status `Rejected`. -/
def rejectedLeaveDoc : LeaveDoc :=
  { employee := 1, leaveType := "Sick", startDate := 3, endDate := 4,
    numberOfDays := 2, reason := "flu", status := "Rejected",
    rejectionReason := some "short notice" }

/-- A stored Leave document sitting in status `Pending`. -/
def pendingLeaveDoc : LeaveDoc :=
  { employee := 2, leaveType := "Annual", startDate := 7, endDate := 9,
    numberOfDays := 3, reason := "vacation", status := "Pending",
    rejectionReason := none }

/-- C6 counterexample: the transition `Rejected → Approved` DOES occur —
the schema constrains `status` only to its enum and carries no transition
logic, so updating a rejected leave to `Approved` succeeds. -/
theorem leave_rejected_to_approved_succeeds :
    updateLeaveStatus rejectedLeaveDoc "Approved" =
      .ok { rejectedLeaveDoc with status := "Approved" } := by
  decide

/-- C6 (amended): `status` is restricted only by its enum
(`Pending`/`Approved`/`Rejected`/`Cancelled`, default `Pending`): any
update to an enum value succeeds — including `Pending → Approved →
Cancelled` and equally `Rejected → Approved` — and any update to a
non-enum value fails with `ValidationError`. -/
theorem leave_status_enum_only :
    ∀ (d : LeaveDoc) (s : String), leaveTypes.contains d.leaveType = true →
      (leaveStatuses.contains s = true →
        updateLeaveStatus d s = .ok { d with status := s }) ∧
      (leaveStatuses.contains s = false →
        updateLeaveStatus d s = .error .ValidationError) ∧
      (∀ t, leaveStatuses.contains s = true → leaveStatuses.contains t = true →
        updateLeaveStatus { d with status := s } t = .ok { d with status := t }) := by
  intro d s hlt
  refine ⟨?_, ?_, ?_⟩
  · intro hs
    unfold updateLeaveStatus validateLeave
    simp only [Bool.and_eq_true]
    rw [if_pos (And.intro hlt hs)]
  · intro hs
    unfold updateLeaveStatus validateLeave
    rw [if_neg]
    rw [Bool.and_eq_true]
    intro hand
    rw [hs] at hand
    exact absurd hand.2 (by simp)
  · intro t hs ht
    unfold updateLeaveStatus validateLeave
    simp only [Bool.and_eq_true]
    rw [if_pos (And.intro hlt ht)]

/-- C6 witness: the amended theorem instantiated with the sequence
`Pending → Approved → Cancelled` on a concrete leave. -/
theorem leave_status_enum_only_witness :
    updateLeaveStatus { pendingLeaveDoc with status := "Approved" } "Cancelled" =
      .ok { pendingLeaveDoc with status := "Cancelled" } :=
  (leave_status_enum_only pendingLeaveDoc "Approved" (by decide)).2.2
    "Cancelled" (by decide) (by decide)

/-- C7: biometric reconciliation is idempotent: the first call on an
unprocessed log (with a resolved employee) marks it `processed`, links an
attendance record and applies exactly one Attendance mutation; the second
call on the resulting log is a no-op — it mutates nothing, leaves the
attendance collection unchanged and the `processed` flag stays `true`. -/
theorem reconcile_idempotent (log : BiometricLogDoc) (db : List AttendanceDoc)
    (emp : Nat) (hp : log.processed = false) (he : log.employee = some emp) :
    (reconcile log db).log.processed = true ∧
    (reconcile log db).mutated = true ∧
    reconcile (reconcile log db).log (reconcile log db).attendance =
      ⟨(reconcile log db).log, (reconcile log db).attendance, false⟩ := by
  unfold reconcile
  rw [hp, he]
  simp only [Bool.false_eq_true, if_false]
  cases hf : db.findIdx?
      (fun a => a.employee == emp && a.date == dayOf log.timestamp) with
  | some j => simp
  | none => simp

/-- An unprocessed CheckIn event from device employee 7. -/
def checkInLog : BiometricLogDoc :=
  { biometricId := "BIO7", employee := some 7, logType := "CheckIn",
    timestamp := 86400123, deviceId := some "DEV1", processed := false,
    processedAt := none, attendanceRecord := none }

/-- C7 witness: the idempotence theorem applied to a concrete unprocessed
check-in event over an empty attendance collection. -/
theorem reconcile_idempotent_witness :
    (reconcile checkInLog []).log.processed = true ∧
    (reconcile checkInLog []).mutated = true ∧
    reconcile (reconcile checkInLog []).log (reconcile checkInLog []).attendance =
      ⟨(reconcile checkInLog []).log, (reconcile checkInLog []).attendance, false⟩ :=
  reconcile_idempotent checkInLog [] 7 (by decide) (by decide)

/-- C2: in every reachable attendance store no two records share the
`(employee, date)` pair, and after a create succeeds, a second create whose
validated document carries the same `(employee, date)` pair fails with
`DuplicateKey`. -/
theorem attendance_employee_date_unique {db : List AttendanceDoc}
    (h : AttReach db) :
    db.Pairwise (fun a b => ¬(a.employee = b.employee ∧ a.date = b.date)) ∧
    ∀ i₁ db₂ i₂ d₁ d₂, insertAttendance db i₁ = .ok db₂ →
      buildAttendance i₁ = some d₁ → buildAttendance i₂ = some d₂ →
      d₂.employee = d₁.employee → d₂.date = d₁.date →
      insertAttendance db₂ i₂ = .error .DuplicateKey := by
  constructor
  · have hu := attReach_unique h
    unfold StoreUnique at hu
    refine hu.imp ?_
    intro a b hc hab
    unfold conflictAttendance at hc
    rw [hab.1, hab.2] at hc
    simp at hc
  · intro i₁ db₂ i₂ d₁ d₂ hins hb₁ hb₂ hemp hdate
    unfold insertAttendance at hins ⊢
    rw [hb₁] at hins
    rw [hb₂]
    refine storeInsert_dup_after hins ?_
    unfold conflictAttendance
    rw [hemp, hdate]
    simp

/-- An Attendance write payload for employee 7 on day 86400000. -/
def attInputDay1 : AttendanceInput :=
  { employee := some 7, date := some 86400000 }

/-- The document the store accepts for `attInputDay1`. -/
def attDocDay1 : AttendanceDoc :=
  { employee := 7, date := 86400000, checkInTime := none,
    checkInSource := "Biometric", checkOutTime := none,
    checkOutSource := "Biometric", totalWorkHours := none,
    totalBreakTime := none, workType := "Office", status := "Present",
    isLate := false, lateByMinutes := 0, isEarly := false,
    earlyByMinutes := 0, overtimeHours := 0, overtimeApproved := false,
    remarks := none }

/-- C2 witness: creating the same `(employee, date)` attendance twice —
the first create succeeds, the second fails with `DuplicateKey`. -/
theorem attendance_employee_date_unique_witness :
    insertAttendance [attDocDay1] attInputDay1 = .error .DuplicateKey :=
  (attendance_employee_date_unique AttReach.empty).2 attInputDay1 [attDocDay1]
    attInputDay1 attDocDay1 attDocDay1 (by decide) (by decide) (by decide)
    rfl rfl

/-- C3: in every reachable employee store, `employeeId`, `email` and (when
present) `biometricId` are pairwise distinct across all records, and a
validated write colliding with a stored record on any of the three unique
indexes fails with `DuplicateKey`. -/
theorem employee_unique_keys {db : List EmployeeDoc} (h : EmpReach db) :
    db.Pairwise (fun a b => a.employeeId ≠ b.employeeId ∧ a.email ≠ b.email ∧
      ∀ x, a.biometricId = some x → b.biometricId ≠ some x) ∧
    ∀ i d, buildEmployee i = some d → (∃ e ∈ db, conflictEmployee d e = true) →
      insertEmployee db i = .error .DuplicateKey := by
  constructor
  · have hu := empReach_unique h
    unfold StoreUnique at hu
    refine hu.imp ?_
    intro a b hc
    unfold conflictEmployee at hc
    rw [Bool.or_eq_false_iff, Bool.or_eq_false_iff] at hc
    refine ⟨beq_eq_false_iff_ne.mp hc.1.1, beq_eq_false_iff_ne.mp hc.1.2, ?_⟩
    intro x hax hbx
    have h3 := hc.2
    rw [hax, hbx] at h3
    simp at h3
  · intro i d hb hex
    unfold insertEmployee
    rw [hb]
    exact storeInsert_dup_mem hex

/-- An Employee write payload with a fixed id, email and biometric id. -/
def empInputE1 : EmployeeInput :=
  { employeeId := some "E1", firstName := some "Ada", lastName := some "Lau",
    email := some "ada@ces.com", phone := some "111", department := some 1,
    designation := some "Dev", employeeType := some "Full-Time",
    joiningDate := some 100, basicSalary := some 1000,
    biometricId := some "B1" }

/-- The document the store accepts for `empInputE1`. -/
def empDocE1 : EmployeeDoc :=
  { employeeId := "E1", firstName := "Ada", lastName := "Lau",
    email := "ada@ces.com", phone := "111", department := 1,
    designation := "Dev", employeeType := "Full-Time", joiningDate := 100,
    probationPeriod := 3, workLocation := "Office", basicSalary := 1000,
    houseRent := 0, medical := 0, transport := 0, otherAllowance := 0,
    tax := 0, providentFund := 0, insurance := 0, otherDeduction := 0,
    biometricId := some "B1", fingerprintRegistered := false,
    status := "Active", casual := 12, sick := 10, annual := 15, unpaid := 0 }

/-- C3 witness: re-creating an employee sharing the stored record's keys
fails with `DuplicateKey` in the reachable one-record store. -/
theorem employee_unique_keys_witness :
    insertEmployee [empDocE1] empInputE1 = .error .DuplicateKey :=
  (employee_unique_keys
      (@EmpReach.created [] empInputE1 [empDocE1] EmpReach.empty (by decide))).2
    empInputE1 empDocE1 (by decide) ⟨empDocE1, by simp, by decide⟩

/-- C8: in every reachable salary store (creates and updates) no two
records share the `(employee, month, year)` triple; a validated create or
update colliding with another stored record on the triple fails with
`DuplicateKey`. -/
theorem salary_period_unique {db : List SalaryDoc} (h : SalReach db) :
    db.Pairwise
      (fun a b => ¬(a.employee = b.employee ∧ a.month = b.month ∧ a.year = b.year)) ∧
    (∀ i d, buildSalary i = some d →
      (∃ e ∈ db, e.employee = d.employee ∧ e.month = d.month ∧ e.year = d.year) →
      insertSalary db i = .error .DuplicateKey) ∧
    (∀ k i d, buildSalary i = some d → k < db.length →
      (∃ e ∈ db.eraseIdx k,
        e.employee = d.employee ∧ e.month = d.month ∧ e.year = d.year) →
      updateSalary db k i = .error .DuplicateKey) := by
  refine ⟨?_, ?_, ?_⟩
  · have hu := salReach_unique h
    unfold StoreUnique at hu
    refine hu.imp ?_
    intro a b hc hab
    unfold conflictSalary at hc
    rw [hab.1, hab.2.1, hab.2.2] at hc
    simp at hc
  · intro i d hb hex
    unfold insertSalary
    rw [hb]
    refine storeInsert_dup_mem ?_
    obtain ⟨e, he, h1, h2, h3⟩ := hex
    refine ⟨e, he, ?_⟩
    unfold conflictSalary
    rw [h1, h2, h3]
    simp
  · intro k i d hb hk hex
    unfold updateSalary
    rw [hb]
    show storeUpdate conflictSalary db k d = Except.error WriteError.DuplicateKey
    unfold storeUpdate
    rw [if_pos hk]
    refine storeInsert_dup_mem ?_
    obtain ⟨e, he, h1, h2, h3⟩ := hex
    refine ⟨e, he, ?_⟩
    unfold conflictSalary
    rw [h1, h2, h3]
    simp

/-- A Salary write payload for employee 3, March 2024. -/
def salInputMar : SalaryInput :=
  { employee := some 3, month := some 3, year := some 2024,
    basicSalary := some 1000, totalWorkingDays := some 21,
    presentDays := some 20, grossSalary := some 1000,
    totalDeductions := some 0, netSalary := some 1000 }

/-- The document the store accepts for `salInputMar`. -/
def salDocMar : SalaryDoc :=
  { employee := 3, month := 3, year := 2024, basicSalary := 1000,
    houseRentAllowance := 0, medicalAllowance := 0, transportAllowance := 0,
    otherAllowances := 0, overtime := 0, bonus := 0, incentives := 0,
    tax := 0, providentFund := 0, insurance := 0, loanDeduction := 0,
    lateDeduction := 0, absentDeduction := 0, otherDeductions := 0,
    totalWorkingDays := 21, presentDays := 20, absentDays := 0,
    leaveDays := 0, halfDays := 0, paidLeaveDays := 0, grossSalary := 1000,
    totalDeductions := 0, netSalary := 1000, paymentStatus := "Pending",
    paymentMethod := none }

/-- C8 witness: creating a second salary record for the same employee and
period fails with `DuplicateKey` in the reachable one-record store. -/
theorem salary_period_unique_witness :
    insertSalary [salDocMar] salInputMar = .error .DuplicateKey :=
  (salary_period_unique
      (@SalReach.created [] salInputMar [salDocMar] SalReach.empty (by decide))).2.1
    salInputMar salDocMar (by decide) ⟨salDocMar, by simp, rfl, rfl, rfl⟩

/-- A Salary write payload whose `grossSalary` (100) does not equal the sum
of its itemized earnings (only `basicSalary = 50`). -/
def salBadTotals : SalaryInput :=
  { employee := some 1, month := some 1, year := some 2024,
    basicSalary := some 50, totalWorkingDays := some 22,
    presentDays := some 22, grossSalary := some 100,
    totalDeductions := some 0, netSalary := some 100 }

/-- The document the store accepts for `salBadTotals`. -/
def salBadTotalsDoc : SalaryDoc :=
  { employee := 1, month := 1, year := 2024, basicSalary := 50,
    houseRentAllowance := 0, medicalAllowance := 0, transportAllowance := 0,
    otherAllowances := 0, overtime := 0, bonus := 0, incentives := 0,
    tax := 0, providentFund := 0, insurance := 0, loanDeduction := 0,
    lateDeduction := 0, absentDeduction := 0, otherDeductions := 0,
    totalWorkingDays := 22, presentDays := 22, absentDays := 0,
    leaveDays := 0, halfDays := 0, paidLeaveDays := 0, grossSalary := 100,
    totalDeductions := 0, netSalary := 100, paymentStatus := "Pending",
    paymentMethod := none }

/-- C1 counterexample: a Salary write whose `grossSalary` does not equal
the sum of the itemized earnings is NOT rejected — the schema only marks
the three totals `required` and declares no reconciliation check, so the
write is accepted. -/
theorem salary_unreconciled_write_accepted :
    insertSalary [] salBadTotals = .ok [salBadTotalsDoc] ∧
      salBadTotalsDoc.grossSalary ≠ earningsSum salBadTotalsDoc := by
  constructor
  · decide
  · decide

/-- C1 (amended): `grossSalary`, `totalDeductions` and `netSalary` are
required at write time but stored exactly as supplied: validation never
compares them with the itemized earnings/deductions sums, so acceptance of
a Salary write is independent of the three totals' values. -/
theorem salary_totals_pass_through :
    ∀ (i : SalaryInput) (g t n : Int),
      (∀ d, buildSalary { i with
            grossSalary := some g, totalDeductions := some t,
            netSalary := some n } = some d →
        d.grossSalary = g ∧ d.totalDeductions = t ∧ d.netSalary = n) ∧
      ∀ g₂ t₂ n₂,
        (buildSalary { i with
            grossSalary := some g₂, totalDeductions := some t₂,
            netSalary := some n₂ }).isSome =
        (buildSalary { i with
            grossSalary := some g, totalDeductions := some t,
            netSalary := some n }).isSome := by
  intro i g t n
  obtain ⟨emp, m, y, bs, hra, ma, ta, oa, ot, bn, inc, tx, pf, ins, lnd, ltd,
    abd, othd, twd, pdy, absd, lvd, hfd, pld, gs0, td0, ns0, ps, pm⟩ := i
  constructor
  · intro d h
    unfold buildSalary at h
    cases emp <;> cases m <;> cases y <;> cases bs <;> cases twd <;>
      cases pdy <;> simp at h
    obtain ⟨hc, rfl⟩ := h
    exact ⟨rfl, rfl, rfl⟩
  · intro g₂ t₂ n₂
    unfold buildSalary
    cases emp <;> cases m <;> cases y <;> cases bs <;> cases twd <;>
      cases pdy <;> simp [apply_ite]

/-- C1 witness: the amended theorem applied to the concrete unreconciled
write. -/
theorem salary_totals_pass_through_witness :
    salBadTotalsDoc.grossSalary = 100 ∧ salBadTotalsDoc.totalDeductions = 0 ∧
      salBadTotalsDoc.netSalary = 100 :=
  (salary_totals_pass_through
      { salBadTotals with
          grossSalary := none, totalDeductions := none, netSalary := none }
      100 0 100).1
    salBadTotalsDoc (by decide)

/-- C10: an Employee write that supplies no `leaveBalance` values is stored
with the per-type defaults casual 12, sick 10, annual 15, unpaid 0 — the
constants baked into the schema (lines 229-234). -/
theorem employee_leave_balance_defaults :
    ∀ (i : EmployeeInput) (d : EmployeeDoc),
      buildEmployee { i with
          casual := none, sick := none, annual := none,
          unpaid := none } = some d →
      d.casual = 12 ∧ d.sick = 10 ∧ d.annual = 15 ∧ d.unpaid = 0 := by
  intro i d h
  unfold buildEmployee at h
  split at h
  · split at h
    · injection h with h
      subst h
      exact ⟨rfl, rfl, rfl, rfl⟩
    · exact Option.noConfusion h
  · exact Option.noConfusion h

/-- C10 witness: the defaults theorem applied to a concrete write that
omits the leave balances. -/
theorem employee_leave_balance_defaults_witness :
    empDocE1.casual = 12 ∧ empDocE1.sick = 10 ∧ empDocE1.annual = 15 ∧
      empDocE1.unpaid = 0 :=
  employee_leave_balance_defaults empInputE1 empDocE1 (by decide)
